import Mathlib

/-!
# Verification of the Instagram session / scraping core of `antistatic-landing`

Shallow embedding of the session-lifecycle, login, page-classification,
scrape-orchestration and retry logic of the repository, together with the
HTTP-route logic of `src/app/api/instagram/session/refresh/route.ts` and the
environment manager of `lib/services/env-manager.ts`.

Several core modules (`lib/services/instagram-session.ts`, the scrape
orchestrator `app/api/test/instagram-scrape/route.ts` with its page-state
classifier, post-grid loop and count parser, and the shared retry helper) are
not part of the source tree available here; only their callers and the design
documentation are.  Those definitions are modelled from the specification, and
each such definition carries a doc comment starting `Modelled from the spec:`.
Everything else is translated directly from the TypeScript source.
-/

/-! ## Page-state classification -/

/-- The closed set of page states of the classifier (spec section 4.1 and the
`classifyInstagramPageState` function named in `INSTAGRAM_SCRAPING_ANALYSIS.md`). -/
inductive PageState where
  | Ok
  | LoginRequired
  | ChallengeRequired
  | RateLimited
  | Unknown
deriving DecidableEq, Repr

/-- `beginsWith s p` is true when the character list `p` occurs at the head of `s`. -/
def beginsWith : List Char → List Char → Bool
  | _, [] => true
  | [], _ :: _ => false
  | c :: cs, p :: ps => c = p && beginsWith cs ps

/-- `containsSeg s p` is true when `p` occurs contiguously anywhere in `s`. -/
def containsSeg : List Char → List Char → Bool
  | [], pat => pat.isEmpty
  | c :: rest, pat => beginsWith (c :: rest) pat || containsSeg rest pat

/-- Modelled from the spec: the login-route URL test of the missing page-state
classifier.  `INSTAGRAM_SCRAPING_ANALYSIS.md`: a redirect to `/accounts/login`
means the session expired. -/
def isLoginRoute (url : String) : Bool :=
  containsSeg url.toList "/accounts/login".toList

/-- Modelled from the spec: the challenge/checkpoint-route URL test of the
missing classifier.  `INSTAGRAM_SCRAPING_ANALYSIS.md`: a redirect to
`/challenge` or `/checkpoint` means verification is required. -/
def isChallengeRoute (url : String) : Bool :=
  containsSeg url.toList "/challenge".toList || containsSeg url.toList "/checkpoint".toList

/-- A DOM snapshot abstracted to the detection signals the classifier reads
(spec section 4.1: rate-limit/CAPTCHA markers and the authenticated marker;
the spec leaves the concrete markup pluggable). -/
structure DomSnapshot where
  rateLimitMarker : Bool
  captchaMarker : Bool
  authenticatedMarker : Bool
deriving DecidableEq, Repr

/-- Modelled from the spec: the missing page-state classifier
`classify(url, domSnapshot) -> PageState` (spec section 4.1), rules in
priority order with URL-based signals before DOM-based signals. -/
def classify (url : String) (dom : DomSnapshot) : PageState :=
  if isLoginRoute url then PageState.LoginRequired
  else if isChallengeRoute url then PageState.ChallengeRequired
  else if dom.rateLimitMarker || dom.captchaMarker then PageState.RateLimited
  else if dom.authenticatedMarker then PageState.Ok
  else PageState.Unknown

/-! ## Session records and the scrape-time cookie injection -/

/-- The session record, with the field names used throughout the source
(`refresh/route.ts`, the status route, `env-manager.ts`):
`sessionid`, `csrftoken`, `ds_user_id`, `refreshed_at`, `expires_at`,
`is_valid`.  Timestamps are milliseconds since the epoch. -/
structure InstagramSession where
  sessionid : String
  csrftoken : Option String
  ds_user_id : Option String
  refreshed_at : Nat
  expires_at : Nat
  is_valid : Bool
deriving DecidableEq, Repr

/-- The cookies the scraper would inject for a session: `sessionid` always,
`csrftoken` and `ds_user_id` when present (the authentication method described
in `INSTAGRAM_SCRAPING_ANALYSIS.md`). -/
def sessionCookies (s : InstagramSession) : List (String × String) :=
  ("sessionid", s.sessionid) ::
    ((match s.csrftoken with
      | some c => [("csrftoken", c)]
      | none => []) ++
     (match s.ds_user_id with
      | some u => [("ds_user_id", u)]
      | none => []))

/-- The browser-context setup chosen by the orchestrator before navigation:
which cookies are injected, and whether the run proceeds anonymously. -/
structure BrowserContextSetup where
  injectedCookies : List (String × String)
  anonymous : Bool
deriving DecidableEq, Repr

/-- Modelled from the spec: the cookie-injection step of the missing scrape
orchestrator (spec sections 4.5 and 3): a non-null valid session has its
cookies injected; a null or invalidated session means anonymous mode. -/
def scrapeSetup (session : Option InstagramSession) : BrowserContextSetup :=
  match session with
  | some s =>
      if s.is_valid then { injectedCookies := sessionCookies s, anonymous := false }
      else { injectedCookies := [], anonymous := true }
  | none => { injectedCookies := [], anonymous := true }

/-! ## Count normalization -/

/-- Splits a character list at the first dot: returns the part before the dot
and, when a dot exists, the part after it. -/
def takeUntilDot : List Char → List Char × Option (List Char)
  | [] => ([], none)
  | c :: cs =>
      if c = '.' then ([], some cs)
      else
        let r := takeUntilDot cs
        (c :: r.1, r.2)

/-- True when the character list is a nonempty run of decimal digits. -/
def digitsNonempty (cs : List Char) : Bool :=
  !cs.isEmpty && cs.all Char.isDigit

/-- Numeric value of a run of decimal digits. -/
def natOfDigits (cs : List Char) : Nat :=
  cs.foldl (fun acc c => acc * 10 + (c.toNat - 48)) 0

/-- Modelled from the spec: the fixed multiplier table of the missing count
normalizer — a thousands marker `K` and a millions marker `M`
(`INSTAGRAM_SCRAPING_ANALYSIS.md`: count parsing handles "K" and "M"
notation).  Returns the multiplier and the remaining numeric text. -/
def countMultiplier (cs : List Char) : Nat × List Char :=
  match cs.getLast? with
  | some c =>
      if c = 'K' || c = 'k' then (1000, cs.dropLast)
      else if c = 'M' || c = 'm' then (1000000, cs.dropLast)
      else (1, cs)
  | none => (1, cs)

/-- Modelled from the spec: the missing count-normalization function of the
scrape orchestrator (spec section 4.5): abbreviated textual counts are mapped
to exact integers via the fixed multiplier table; ambiguous or unparseable
input yields `none`, never a guessed number. -/
def parseCount (s : String) : Option Nat :=
  let pm := countMultiplier s.toList
  let mult := pm.1
  let wd := takeUntilDot pm.2
  match wd.2 with
  | none =>
      if digitsNonempty wd.1 then some (natOfDigits wd.1 * mult) else none
  | some frac =>
      if digitsNonempty wd.1 && digitsNonempty frac then
        let d := Nat.pow 10 frac.length
        if d ∣ mult then
          some (natOfDigits wd.1 * mult + natOfDigits frac * (mult / d))
        else none
      else none

/-! ## Post-grid extraction loop -/

/-- Outcome of the post-grid extraction loop: scroll cycles performed, posts
collected, and whether the result is partial. -/
structure GridOutcome where
  cycles : Nat
  posts : Nat
  isPartial : Bool
deriving DecidableEq, Repr

/-- Modelled from the spec: the body of the missing post-grid scroll+retry
loop of the scrape orchestrator (spec sections 4.5 and 8).  Arguments after
`maxPosts`: cycles already performed, items collected, current run of
consecutive zero-yield cycles, cycles remaining.  Each cycle scrolls and
re-queries the grid, obtaining `yields` new items for that cycle number; the
loop stops once `maxPosts` items are present, after the first run of two
consecutive zero-yield cycles (the 0-yield-in-a-row stopping rule of spec
section 8), or when the cycle budget is exhausted. -/
def postGridAux (yields : Nat → Nat) (maxPosts : Nat) :
    Nat → Nat → Nat → Nat → Nat × Nat
  | cyclesDone, collected, _zeroStreak, 0 => (cyclesDone, collected)
  | cyclesDone, collected, zeroStreak, remaining + 1 =>
      let y := yields (cyclesDone + 1)
      let collected2 := collected + y
      let cyclesDone2 := cyclesDone + 1
      if maxPosts ≤ collected2 then (cyclesDone2, collected2)
      else
        let zeroStreak2 := if y = 0 then zeroStreak + 1 else 0
        if 2 ≤ zeroStreak2 then (cyclesDone2, collected2)
        else postGridAux yields maxPosts cyclesDone2 collected2 zeroStreak2 remaining

/-- Modelled from the spec: the missing post-grid extraction of the scrape
orchestrator (spec section 4.5): at most `maxCycles` scroll+retry cycles
(default 5), stopping early once `maxPosts` items are present; exhaustion is
not fatal and yields a partial result with whatever was collected. -/
def postGridExtract (yields : Nat → Nat) (maxCycles maxPosts : Nat) : GridOutcome :=
  let r := postGridAux yields maxPosts 0 0 0 maxCycles
  { cycles := r.1, posts := r.2, isPartial := decide (r.2 < maxPosts) }

/-- The input sequence of the spec section 8 grid scenario: 2 new items on
cycle 1, 0 on cycle 2, 3 on cycle 3, 0 on every later cycle. -/
def scenarioYields : Nat → Nat :=
  fun c => if c = 1 then 2 else if c = 3 then 3 else 0

/-! ## Retry/backoff policy -/

/-- Classification of an error by the retry policy (spec section 4.6):
retryable (timeout, transient network) or terminal (authentication failure,
malformed response). -/
inductive ErrClass where
  | retryable
  | terminal
deriving DecidableEq, Repr

/-- Outcome of one attempt of the wrapped operation. -/
inductive AttemptOutcome where
  | ok
  | err (k : ErrClass)
deriving DecidableEq, Repr

/-- Result of a bounded-retry run: the final outcome and the number of the
attempt on which the run ended. -/
inductive RetryResult where
  | success (attemptsUsed : Nat)
  | failure (k : ErrClass) (attemptsUsed : Nat)
deriving DecidableEq, Repr

/-- Modelled from the spec: the attempt loop of the missing shared retry
helper `withRetry` (spec section 4.6).  `attempt` is the 1-based number of the
next attempt, `fuel` the attempts still allowed.  A success or a terminal
error ends the run on the attempt where it occurs; a retryable error consumes
one unit of budget and leads to the next attempt. -/
def withRetryAux (op : Nat → AttemptOutcome) : Nat → Nat → RetryResult
  | attempt, 0 => RetryResult.failure ErrClass.retryable (attempt - 1)
  | attempt, fuel + 1 =>
      match op attempt with
      | AttemptOutcome.ok => RetryResult.success attempt
      | AttemptOutcome.err ErrClass.terminal => RetryResult.failure ErrClass.terminal attempt
      | AttemptOutcome.err ErrClass.retryable => withRetryAux op (attempt + 1) fuel

/-- Modelled from the spec: the missing shared retry helper
`withRetry(operation, maxAttempts, baseDelayMs)` (spec section 4.6; the
backoff delay does not affect which attempts run and is elided). -/
def withRetry (op : Nat → AttemptOutcome) (maxAttempts : Nat) : RetryResult :=
  withRetryAux op 1 maxAttempts

/-- The attempt number on which a retry run ended. -/
def attemptsUsed : RetryResult → Nat
  | RetryResult.success n => n
  | RetryResult.failure _ n => n

/-! ## Login automation state machine and session lifecycle manager -/

/-- Terminal outcome of the login automation state machine (spec section 4.3):
success carries the credentials extracted from the cookie jar; failure carries
the typed reason. -/
inductive LoginResult where
  | success (sessionid : String) (csrftoken : Option String) (userId : Option String)
  | failed (reason : String)
deriving DecidableEq, Repr

/-- Modelled from the spec: the transition function of the missing login
automation state machine (spec section 4.3).  `afterSubmit` is the
classification of the page reached after submitting credentials,
`backupCodeConfigured` whether a two-factor backup code is configured, and
`afterBackup` the classification after submitting the backup code (consulted
only on the two-factor path).  `creds` are the credentials a successful run
extracts from the cookie jar. -/
def loginMachine (afterSubmit : PageState) (backupCodeConfigured : Bool)
    (afterBackup : PageState)
    (sid : String) (csrf uid : Option String) : LoginResult :=
  match afterSubmit with
  | PageState.LoginRequired => LoginResult.failed "invalid credentials or still on login page"
  | PageState.ChallengeRequired =>
      if backupCodeConfigured then
        match afterBackup with
        | PageState.Ok => LoginResult.success sid csrf uid
        | _ => LoginResult.failed "challenge not resolved by backup code"
      else LoginResult.failed "two-factor required, no backup code"
  | PageState.Ok => LoginResult.success sid csrf uid
  | _ => LoginResult.failed "unexpected page state after login"

/-- Process-wide state of the session lifecycle manager: the current session
record and the start time of the last refresh attempt that ran. -/
structure ServiceState where
  currentSession : Option InstagramSession
  lastRefreshStart : Option Nat
deriving DecidableEq, Repr

/-- The refresh cooldown: 5 minutes, in milliseconds (spec section 4.4,
`INSTAGRAM_SESSION_AUTOMATION.md`: built-in 5-minute cooldown). -/
def COOLDOWN_MS : Nat := 5 * 60 * 1000

/-- Session lifetime used for `expires_at`: 24 hours in milliseconds
(`INSTAGRAM_SESSION_AUTOMATION.md`: `expires_in: 86400`). -/
def SESSION_TTL_MS : Nat := 24 * 60 * 60 * 1000

/-- Modelled from the spec: the cooldown gate of the missing
`refreshSession` (spec section 4.4): active when the previous attempt started
less than the cooldown interval before `now`. -/
def cooldownActive (st : ServiceState) (now : Nat) : Bool :=
  match st.lastRefreshStart with
  | some t => decide (now < t + COOLDOWN_MS)
  | none => false

/-- The new session record built from a successful login at time `now`. -/
def buildSession (now : Nat) (sid : String) (csrf uid : Option String) : InstagramSession :=
  { sessionid := sid, csrftoken := csrf, ds_user_id := uid,
    refreshed_at := now, expires_at := now + SESSION_TTL_MS, is_valid := true }

/-- Result record of one refresh call.  `browserLaunched` and `loginInvoked`
record whether the call drove a browser and ran the login state machine. -/
structure RefreshOutcome where
  success : Bool
  session : Option InstagramSession
  error : Option String
  browserLaunched : Bool
  loginInvoked : Bool
deriving DecidableEq, Repr

/-- Modelled from the spec: the missing
`InstagramSessionService.refreshSession` (spec section 4.4).  Fails fast with
a `CooldownActive` error — without launching a browser or running the login
machine, and without touching the state — when the previous attempt started
less than the cooldown interval ago.  Otherwise records the attempt start,
drives the login state machine (summarised by its terminal `login` result):
on success the new record becomes the current session; on failure the current
session is left untouched and the typed reason is returned verbatim. -/
def refreshSession (st : ServiceState) (now : Nat) (login : LoginResult) :
    RefreshOutcome × ServiceState :=
  if cooldownActive st now then
    ({ success := false, session := none, error := some "CooldownActive",
       browserLaunched := false, loginInvoked := false }, st)
  else
    let st1 : ServiceState := { st with lastRefreshStart := some now }
    match login with
    | LoginResult.success sid csrf uid =>
        let s := buildSession now sid csrf uid
        ({ success := true, session := some s, error := none,
           browserLaunched := true, loginInvoked := true },
         { st1 with currentSession := some s })
    | LoginResult.failed reason =>
        ({ success := false, session := none, error := some reason,
           browserLaunched := true, loginInvoked := true }, st1)

/-! ## The refresh HTTP route (`src/app/api/instagram/session/refresh/route.ts`) -/

/-- An HTTP response of the refresh route, reduced to the fields the claims
are about. -/
structure HttpResponse where
  status : Nat
  success : Bool
deriving DecidableEq, Repr

/-- The environment-file write of `EnvManager.updateEnvironment`
(`env-manager.ts`): rewrites `.env.local` and throws on any file error;
`fails` abstracts whether the underlying file operations fail. -/
def tryEnvUpdate (fails : Bool) : Except String Unit :=
  if fails then Except.error "Failed to update environment file" else Except.ok ()

/-- `executeRefresh` from `refresh/route.ts` (lines 99-141): runs
`refreshSession`; when it did not succeed or produced no session, responds
500 with the error; otherwise attempts the environment update inside a
try/catch whose catch arm only logs and continues, then responds 200. -/
def executeRefresh (st : ServiceState) (now : Nat) (login : LoginResult)
    (envUpdateFails : Bool) : HttpResponse × ServiceState :=
  let p := refreshSession st now login
  match p.1.success, p.1.session with
  | true, some _ =>
      (match tryEnvUpdate envUpdateFails with
       | Except.ok _ => ({ status := 200, success := true }, p.2)
       | Except.error _ => ({ status := 200, success := true }, p.2))
  | true, none => ({ status := 500, success := false }, p.2)
  | false, _ => ({ status := 500, success := false }, p.2)

/-- Outcome of a call that may throw, as seen by a caller of
`executeRefresh` inside the route's try/catch. -/
inductive ExecOutcome where
  | normal (status : Nat)
  | thrown (msg : String)
deriving DecidableEq, Repr

/-- The restore step of the headless-override block of `POST`
(`refresh/route.ts` lines 43-47, 51-55, 67-71, 75-79): when the original
value existed the variable is set back to it, otherwise the variable is
deleted. -/
def restoreHeadlessVar (originalValue : Option String) : Option String :=
  match originalValue with
  | some v => some v
  | none => none

/-- One headless-override block of `POST` (`refresh/route.ts` lines 34-57 and
58-82): saves the original `INSTAGRAM_AUTOMATION_HEADLESS` value, sets the
variable to `forced`, runs `executeRefresh`, and restores the original value
both when the call returns normally and when it throws (the thrown error is
re-thrown).  Returns the outcome together with the final value of the
variable. -/
def runWithHeadlessOverride (envBefore : Option String) (forced : String)
    (exec : ExecOutcome) : ExecOutcome × Option String :=
  let originalValue := envBefore
  let _envDuring : Option String := some forced
  match exec with
  | ExecOutcome.normal r => (ExecOutcome.normal r, restoreHeadlessVar originalValue)
  | ExecOutcome.thrown e => (ExecOutcome.thrown e, restoreHeadlessVar originalValue)

/-- The headful/headless dispatch of `POST` (`refresh/route.ts` lines 28-85):
`headful=true` or `headless=false` forces headful (`'false'`), `headless=true`
or `headful=false` forces headless (`'true'`), otherwise `executeRefresh` runs
with the variable untouched. -/
def postHeadlessBlock (headfulParam headlessParam : Option String)
    (envBefore : Option String) (exec : ExecOutcome) : ExecOutcome × Option String :=
  if headfulParam = some "true" || headlessParam = some "false" then
    runWithHeadlessOverride envBefore "false" exec
  else if headlessParam = some "true" || headfulParam = some "false" then
    runWithHeadlessOverride envBefore "true" exec
  else (exec, envBefore)

/-- Result of the authentication gate of `POST`: the HTTP status and whether
any refresh work was started. -/
structure GateResult where
  status : Nat
  refreshStarted : Bool
deriving DecidableEq, Repr

/-- The API-key check of `POST` (`refresh/route.ts` lines 17-26):
`if (expectedApiKey && apiKey !== expectedApiKey)` — the 401 branch is taken
exactly when `SESSION_REFRESH_API_KEY` is set to a nonempty string (a set but
empty string is falsy in JavaScript) and the `X-API-Key` header differs from
it. -/
def refreshAuthRejects (expectedApiKey headerApiKey : Option String) : Bool :=
  match expectedApiKey with
  | none => false
  | some e => if e = "" then false else decide (headerApiKey ≠ some e)

/-- The authentication gate of `POST` (`refresh/route.ts` lines 13-26): a 401
response before any refresh work when the key check rejects; otherwise the
handler proceeds to the refresh (whose own status is 200 or 500, never 401 —
summarised here as 200 with `refreshStarted := true`). -/
def postRefreshGate (expectedApiKey headerApiKey : Option String) : GateResult :=
  if refreshAuthRejects expectedApiKey headerApiKey then
    { status := 401, refreshStarted := false }
  else { status := 200, refreshStarted := true }

/-! ## Concrete instances used by the witnesses -/

/-- A session record that has been invalidated. -/
def staleSession : InstagramSession :=
  { sessionid := "stale", csrftoken := none, ds_user_id := none,
    refreshed_at := 0, expires_at := 1000, is_valid := false }

/-- A valid session record standing for the previously current session. -/
def oldSession : InstagramSession :=
  { sessionid := "old", csrftoken := some "csrf-old", ds_user_id := some "1",
    refreshed_at := 0, expires_at := 1000, is_valid := true }

/-- A DOM snapshot carrying rate-limit and CAPTCHA markers. -/
def domBlocked : DomSnapshot :=
  { rateLimitMarker := true, captchaMarker := true, authenticatedMarker := false }

/-- Service state before any refresh attempt. -/
def stInit : ServiceState := { currentSession := none, lastRefreshStart := none }

/-- Service state holding a current session and no prior refresh attempt. -/
def stWithSession : ServiceState :=
  { currentSession := some oldSession, lastRefreshStart := none }

/-- An attempt sequence: attempt 1 fails retryably, attempt 2 terminally. -/
def opScenario : Nat → AttemptOutcome :=
  fun i =>
    if i = 1 then AttemptOutcome.err ErrClass.retryable
    else if i = 2 then AttemptOutcome.err ErrClass.terminal
    else AttemptOutcome.ok

/-! ## Theorems -/

/-- C2: for every session `s` with `is_valid = false`, a scrape run never
injects `s`'s cookies into a newly created browser context; the scrape
proceeds in anonymous mode instead, regardless of how `s` became invalid. -/
theorem invalid_session_never_injected (s : InstagramSession)
    (h : s.is_valid = false) :
    (scrapeSetup (some s)).injectedCookies = [] ∧
    (scrapeSetup (some s)).anonymous = true := by
  simp [scrapeSetup, h]

/-- Witness for C2 at a concrete invalidated session. -/
theorem invalid_session_never_injected_witness :
    (scrapeSetup (some staleSession)).anonymous = true :=
  (invalid_session_never_injected staleSession rfl).2

/-- C3: `classify` is deterministic — identical `(url, dom)` inputs always
yield the same `PageState` — and whenever the URL matches the login route the
result is `LoginRequired`, even if the DOM also carries a rate-limit or
CAPTCHA marker: URL-based signals take precedence over DOM-based signals. -/
theorem classify_deterministic_login_precedence (url : String) (dom : DomSnapshot)
    (h : isLoginRoute url = true) :
    (∀ url2 dom2, url2 = url → dom2 = dom → classify url2 dom2 = classify url dom) ∧
    classify url dom = PageState.LoginRequired := by
  refine ⟨fun url2 dom2 hu hd => by rw [hu, hd], ?_⟩
  simp [classify, h]

/-- Witness for C3: the login URL wins over a rate-limit marker in the DOM. -/
theorem classify_login_precedence_witness :
    classify "https://www.instagram.com/accounts/login/?next=%2Facme" domBlocked
      = PageState.LoginRequired :=
  (classify_deterministic_login_precedence
    "https://www.instagram.com/accounts/login/?next=%2Facme" domBlocked
    (by decide)).2

/-- C7: the count-normalization function maps abbreviated textual counts to
exact integers via the fixed multiplier table — `"12.3K"` to 12300, `"4M"` to
4000000, `"857"` to 857 — and unparseable input such as `"N/A"` yields `none`. -/
theorem parseCount_examples :
    parseCount "12.3K" = some 12300 ∧ parseCount "4M" = some 4000000 ∧
    parseCount "857" = some 857 ∧ parseCount "N/A" = none :=
  ⟨by decide, by decide, by decide, by decide⟩

/-- C4 counterexample: on the spec section 8 input sequence (2 new items on
cycle 1, 0 on cycle 2, 3 on cycle 3, 0 thereafter) with `maxPosts = 10` and
the default budget of 5 cycles, the loop performs 5 scroll cycles, not the 3
the claim states: cycle 3 yields new items, so no stopping rule can end the
loop there, and the run continues until the budget (and the run of two
consecutive zero-yield cycles) ends it at cycle 5. -/
theorem postGrid_scenario_not_three_cycles :
    (postGridExtract scenarioYields 5 10).cycles = 5 ∧
    (postGridExtract scenarioYields 5 10).cycles ≠ 3 :=
  ⟨by decide, by decide⟩

/-- C4 amended: on that input the orchestrator performs exactly 5 scroll
cycles (3 of them before the two consecutive zero-yield cycles that end the
run, which coincides with the 5-cycle budget) and returns 5 posts with a
partial result. -/
theorem postGrid_scenario_outcome :
    postGridExtract scenarioYields 5 10 =
      { cycles := 5, posts := 5, isPartial := true } := by
  decide

/-- C9: the headless-override block of `POST` restores
`INSTAGRAM_AUTOMATION_HEADLESS` to its exact pre-call value on every exit
path — both when `executeRefresh` returns normally and when it throws — and
the variable ends deleted (`none`) when it was originally undefined; the
outcome of the call passes through unchanged. -/
theorem headless_var_restored (headfulParam headlessParam envBefore : Option String)
    (exec : ExecOutcome) :
    (postHeadlessBlock headfulParam headlessParam envBefore exec).2 = envBefore ∧
    (postHeadlessBlock headfulParam headlessParam envBefore exec).1 = exec := by
  unfold postHeadlessBlock
  split
  · cases exec <;> cases envBefore <;>
      simp [runWithHeadlessOverride, restoreHeadlessVar]
  · split
    · cases exec <;> cases envBefore <;>
        simp [runWithHeadlessOverride, restoreHeadlessVar]
    · simp

/-- C10: the `POST` handler returns 401 without starting any refresh work
exactly when `SESSION_REFRESH_API_KEY` is set to a nonempty value and the
`X-API-Key` header does not equal it; when the variable is unset or empty the
check is skipped. -/
theorem refresh_auth_gate_iff (expectedApiKey headerApiKey : Option String) :
    ((postRefreshGate expectedApiKey headerApiKey).status = 401 ↔
      (expectedApiKey ≠ none ∧ expectedApiKey ≠ some "" ∧
        headerApiKey ≠ expectedApiKey)) ∧
    ((postRefreshGate expectedApiKey headerApiKey).status = 401 →
      (postRefreshGate expectedApiKey headerApiKey).refreshStarted = false) := by
  constructor
  · cases expectedApiKey with
    | none => simp [postRefreshGate, refreshAuthRejects]
    | some e =>
        rcases eq_or_ne e "" with he | he
        · subst he
          simp [postRefreshGate, refreshAuthRejects]
        · rcases eq_or_ne headerApiKey (some e) with hk | hk
          · subst hk
            simp [postRefreshGate, refreshAuthRejects, he]
          · simp [postRefreshGate, refreshAuthRejects, he, hk]
  · intro h
    by_cases hc : refreshAuthRejects expectedApiKey headerApiKey = true
    · simp [postRefreshGate, hc]
    · simp [postRefreshGate, hc] at h

/-- Witness for C10: with the key configured and the header absent, the gate
rejects with 401 before any refresh work starts. -/
theorem refresh_auth_gate_witness :
    (postRefreshGate (some "secret-key") none).refreshStarted = false :=
  (refresh_auth_gate_iff (some "secret-key") none).2 (by decide)

/-- C1: when a second `refreshSession` call starts less than `COOLDOWN_MS`
after a first call (itself not cooldown-rejected) started, the second call
returns the `CooldownActive` error immediately — without launching a browser,
without invoking the login state machine, and without modifying any service
state, the current session included. -/
theorem refresh_cooldown_rejects_second_call
    (st0 : ServiceState) (t1 t2 : Nat) (l1 l2 : LoginResult)
    (hgate : cooldownActive st0 t1 = false)
    (hlt : t2 < t1 + COOLDOWN_MS) :
    (refreshSession (refreshSession st0 t1 l1).2 t2 l2).1 =
      { success := false, session := none, error := some "CooldownActive",
        browserLaunched := false, loginInvoked := false } ∧
    (refreshSession (refreshSession st0 t1 l1).2 t2 l2).2 =
      (refreshSession st0 t1 l1).2 := by
  have hst1 : (refreshSession st0 t1 l1).2.lastRefreshStart = some t1 := by
    cases l1 <;> simp [refreshSession, hgate]
  have hcd : cooldownActive (refreshSession st0 t1 l1).2 t2 = true := by
    unfold cooldownActive
    rw [hst1]
    exact decide_eq_true hlt
  have key : ∀ stX : ServiceState, cooldownActive stX t2 = true →
      refreshSession stX t2 l2 =
        ({ success := false, session := none, error := some "CooldownActive",
           browserLaunched := false, loginInvoked := false }, stX) := by
    intro stX hX
    simp [refreshSession, hX]
  rw [key _ hcd]
  exact ⟨rfl, rfl⟩

/-- Witness for C1: a second refresh 1 second after a failed first refresh is
rejected with `CooldownActive`. -/
theorem refresh_cooldown_witness :
    (refreshSession (refreshSession stInit 0 (LoginResult.failed "login failed")).2 1000
      (LoginResult.failed "login failed")).1.error = some "CooldownActive" := by
  have h := refresh_cooldown_rejects_second_call stInit 0 1000
    (LoginResult.failed "login failed") (LoginResult.failed "login failed")
    (by decide) (by decide)
  rw [h.1]

/-- C6: when the login state machine terminates in `Failed`, `refreshSession`
returns `success = false` with the typed failure reason verbatim, and the
previously current session record — its `is_valid` flag included — is left
completely unchanged. -/
theorem refresh_failed_preserves_session (st : ServiceState) (now : Nat)
    (reason : String) (hgate : cooldownActive st now = false) :
    (refreshSession st now (LoginResult.failed reason)).1.success = false ∧
    (refreshSession st now (LoginResult.failed reason)).1.error = some reason ∧
    (refreshSession st now (LoginResult.failed reason)).2.currentSession =
      st.currentSession := by
  simp [refreshSession, hgate]

/-- Witness for C6: a two-factor challenge with no backup code leaves the
previously current session in place. -/
theorem refresh_failed_preserves_session_witness :
    (refreshSession stWithSession 0
      (loginMachine PageState.ChallengeRequired false PageState.Unknown
        "new" none none)).2.currentSession = some oldSession := by
  have e : loginMachine PageState.ChallengeRequired false PageState.Unknown
      "new" none none = LoginResult.failed "two-factor required, no backup code" := rfl
  rw [e]
  have h := refresh_failed_preserves_session stWithSession 0
    "two-factor required, no backup code" (by decide)
  rw [h.2.2]
  rfl

/-- C5: a failure of the credential-persistence write after a successful
login does not change the outcome of the refresh: the route responds exactly
as it would had the write succeeded — HTTP 200, `success = true` — and the
new session is the current session; the persistence error is only logged. -/
theorem env_update_failure_nonfatal (st : ServiceState) (now : Nat)
    (sid : String) (csrf uid : Option String)
    (hgate : cooldownActive st now = false) :
    executeRefresh st now (LoginResult.success sid csrf uid) true =
      executeRefresh st now (LoginResult.success sid csrf uid) false ∧
    (executeRefresh st now (LoginResult.success sid csrf uid) true).1 =
      { status := 200, success := true } ∧
    (executeRefresh st now (LoginResult.success sid csrf uid) true).2.currentSession =
      some (buildSession now sid csrf uid) := by
  refine ⟨?_, ?_, ?_⟩ <;>
    simp [executeRefresh, refreshSession, hgate, tryEnvUpdate]

/-- Witness for C5: with a failing environment write, a successful refresh
still responds 200 and installs the new session. -/
theorem env_update_failure_nonfatal_witness :
    (executeRefresh stInit 5 (LoginResult.success "new-sid" none none) true).1 =
      { status := 200, success := true } :=
  (env_update_failure_nonfatal stInit 5 "new-sid" none none (by decide)).2.1

/-- A prefix of retryable failures can be skipped: when attempts
`start, …, start + d - 1` all fail retryably, the run from `start` with
`fuel ≥ d` attempts equals the run from `start + d` with `fuel - d` attempts. -/
theorem withRetryAux_skip (op : Nat → AttemptOutcome) :
    ∀ (d fuel start : Nat), d ≤ fuel →
      (∀ i, start ≤ i → i < start + d → op i = AttemptOutcome.err ErrClass.retryable) →
      withRetryAux op start fuel = withRetryAux op (start + d) (fuel - d) := by
  intro d
  induction d with
  | zero => intro fuel start _ _; simp
  | succ d ih =>
      intro fuel start hd h
      match fuel, hd with
      | fuel + 1, _ =>
        have hstart : op start = AttemptOutcome.err ErrClass.retryable :=
          h start le_rfl (by omega)
        have step : withRetryAux op start (fuel + 1) = withRetryAux op (start + 1) fuel := by
          simp [withRetryAux, hstart]
        have tailEq := ih fuel (start + 1) (by omega)
          (fun i h1 h2 => h i (by omega) (by omega))
        rw [step, tailEq]
        have e1 : start + 1 + d = start + (d + 1) := by omega
        have e2 : fuel - d = fuel + 1 - (d + 1) := by omega
        rw [e1, e2]

/-- The attempt on which a retry run ends never exceeds the attempt budget:
starting from attempt `start ≥ 1` with `fuel` attempts allowed, the run ends
on an attempt numbered at most `start - 1 + fuel`. -/
theorem withRetryAux_attempts_le (op : Nat → AttemptOutcome) :
    ∀ (fuel start : Nat), 1 ≤ start →
      attemptsUsed (withRetryAux op start fuel) ≤ start - 1 + fuel := by
  intro fuel
  induction fuel with
  | zero => intro start h; simp [withRetryAux, attemptsUsed]
  | succ fuel ih =>
      intro start h
      cases hop : op start with
      | ok =>
          simp [withRetryAux, hop, attemptsUsed]
          omega
      | err k =>
          cases k with
          | terminal =>
              simp [withRetryAux, hop, attemptsUsed]
              omega
          | retryable =>
              have tl := ih (start + 1) (by omega)
              have step : withRetryAux op start (fuel + 1) =
                  withRetryAux op (start + 1) fuel := by
                simp [withRetryAux, hop]
              rw [step]
              omega

/-- C8: in `withRetry`, when attempts before `a` all fail retryably, a
terminal error at attempt `a` propagates immediately — the run ends at
attempt `a`, consuming no further attempts; a retryable error at attempt `a`
with budget remaining leads to exactly the next attempt; and no run ever ends
past the `maxAttempts` budget. -/
theorem withRetry_error_classification (op : Nat → AttemptOutcome)
    (maxAttempts a : Nat) (h1 : 1 ≤ a) (h2 : a ≤ maxAttempts)
    (hpre : ∀ i, 1 ≤ i → i < a → op i = AttemptOutcome.err ErrClass.retryable) :
    (op a = AttemptOutcome.err ErrClass.terminal →
      withRetry op maxAttempts = RetryResult.failure ErrClass.terminal a) ∧
    (op a = AttemptOutcome.err ErrClass.retryable → a < maxAttempts →
      withRetry op maxAttempts = withRetryAux op (a + 1) (maxAttempts - a)) ∧
    attemptsUsed (withRetry op maxAttempts) ≤ maxAttempts := by
  have hskip : withRetry op maxAttempts =
      withRetryAux op a (maxAttempts - (a - 1)) := by
    have h := withRetryAux_skip op (a - 1) maxAttempts 1 (by omega)
      (fun i hi1 hi2 => hpre i hi1 (by omega))
    have e : 1 + (a - 1) = a := by omega
    rw [e] at h
    exact h
  refine ⟨?_, ?_, ?_⟩
  · intro hterm
    have hk : maxAttempts - (a - 1) = (maxAttempts - a) + 1 := by omega
    rw [hskip, hk]
    simp [withRetryAux, hterm]
  · intro hre hlt
    have hk : maxAttempts - (a - 1) = (maxAttempts - a) + 1 := by omega
    rw [hskip, hk]
    simp [withRetryAux, hre]
  · have h := withRetryAux_attempts_le op maxAttempts 1 le_rfl
    unfold withRetry
    omega

/-- Witness for C8: with a retryable failure on attempt 1 and a terminal
failure on attempt 2 out of a budget of 3, the run ends terminally on
attempt 2 and stays within the budget. -/
theorem withRetry_error_classification_witness :
    withRetry opScenario 3 = RetryResult.failure ErrClass.terminal 2 ∧
    attemptsUsed (withRetry opScenario 3) ≤ 3 := by
  have h := withRetry_error_classification opScenario 3 2 (by decide) (by decide)
    (fun i hi1 hi2 => by
      have e : i = 1 := by omega
      subst e
      rfl)
  exact ⟨h.1 rfl, h.2.2⟩
